import Mathlib

/-!
A verification development for the `vfio-auto` repository's PCI/IOMMU
discovery-and-matching core (`vfio_configurator/pci.py`,
`vfio_configurator/utils.py`, and the legacy `vfio.py` revision).

Python strings are modelled as Lean `String`s, with the relevant string
operations re-implemented over `List Char` so that all definitions are
executable and kernel-decidable.  Python dictionaries (which preserve
insertion order) are modelled as association lists, and Python's `None`
for absent dictionary keys is modelled with `Option`.
-/

namespace VfioAuto

/-- Character class of the regex `[0-9a-fA-F]` used by `pci.py`. -/
def isHexChar (c : Char) : Bool :=
  c.isDigit || ('a' ≤ c && c ≤ 'f') || ('A' ≤ c && c ≤ 'F')

/-- The whitespace characters stripped by Python's `str.strip()`. -/
def pyIsSpace (c : Char) : Bool :=
  c = ' ' || c = '\t' || c = '\n' || c = '\r' || c = '\x0b' || c = '\x0c'

/-- Python `str.strip()` on a character list: drop whitespace at both ends. -/
def pyStripL (l : List Char) : List Char :=
  ((l.dropWhile pyIsSpace).reverse.dropWhile pyIsSpace).reverse

/-- Python `str.strip()`. -/
def pyStrip (s : String) : String := String.mk (pyStripL s.data)

/-- Python `str.strip('"')`: drop `"` characters at both ends. -/
def stripQuotesL (l : List Char) : List Char :=
  ((l.dropWhile (· = '"')).reverse.dropWhile (· = '"')).reverse

/-- Python `str.lower()` (ASCII case folding, as used on device-class text). -/
def pyLower (s : String) : String := String.mk (s.data.map Char.toLower)

/-- Python's substring test `a in b` on character lists: `a` occurs
contiguously somewhere in `b`. -/
def isSubstr (a : List Char) : List Char → Bool
  | [] => a.isEmpty
  | c :: cs => a.isPrefixOf (c :: cs) || isSubstr a cs

/-- Python `b.endswith(a)` on character lists. -/
def isSuffixL (a b : List Char) : Bool := a.reverse.isPrefixOf b.reverse

/-- Python `s.count(c)` for a single character. -/
def countChar (c : Char) (s : String) : Nat := s.data.count c

/-- Python `s.split(c)` for a single-character separator (never returns `[]`;
a string with no separator yields the one-element list `[s]`). -/
def pySplitChar (c : Char) : List Char → List (List Char)
  | [] => [[]]
  | d :: ds =>
    if d = c then [] :: pySplitChar c ds
    else match pySplitChar c ds with
      | [] => [[d]]
      | p :: ps => (d :: p) :: ps

/-- `pci.py` line 461/468: the "short form" of a BDF string — unchanged when
it has at most one `:`, otherwise the last two `:`-separated components
re-joined (`s.split(':')[-2] + ':' + s.split(':')[-1]`). -/
def shortForm (s : String) : String :=
  if countChar ':' s ≤ 1 then s
  else
    match (pySplitChar ':' s.data).reverse with
    | last :: prev :: _ => String.mk (prev ++ ':' :: last)
    | _ => s

/-- The with-domain branch of the regex at `pci.py` line 436:
`([0-9a-fA-F]{4}):([0-9a-fA-F]{2}:[0-9a-fA-F]{2})\.[0-9a-fA-F]` anchored at
the start (trailing characters permitted).  Returns (domain, bus:device). -/
def tryDomainForm : List Char → Option (String × String)
  | d1 :: d2 :: d3 :: d4 :: c1 :: b1 :: b2 :: c2 :: e1 :: e2 :: c3 :: f :: _ =>
    if isHexChar d1 && isHexChar d2 && isHexChar d3 && isHexChar d4 &&
       c1 = ':' && isHexChar b1 && isHexChar b2 && c2 = ':' &&
       isHexChar e1 && isHexChar e2 && c3 = '.' && isHexChar f then
      some (String.mk [d1, d2, d3, d4], String.mk [b1, b2, ':', e1, e2])
    else none
  | _ => none

/-- The domain-less branch of the same regex:
`([0-9a-fA-F]{2}:[0-9a-fA-F]{2})\.[0-9a-fA-F]` anchored at the start. -/
def tryBareForm : List Char → Option String
  | b1 :: b2 :: c1 :: e1 :: e2 :: c2 :: f :: _ =>
    if isHexChar b1 && isHexChar b2 && c1 = ':' &&
       isHexChar e1 && isHexChar e2 && c2 = '.' && isHexChar f then
      some (String.mk [b1, b2, ':', e1, e2])
    else none
  | _ => none

/-- `re.match(r'(?:([0-9a-fA-F]{4}):)?([0-9a-fA-F]{2}:[0-9a-fA-F]{2})\.[0-9a-fA-F]', bdf)`
from `pci.py` line 436: the optional domain group is tried greedily first,
backtracking to the domain-less alternative.  Returns
(optional domain, bus:device) on success. -/
def parseBdf (s : String) : Option (Option String × String) :=
  match tryDomainForm s.data with
  | some (d, bd) => some (some d, bd)
  | none =>
    match tryBareForm s.data with
    | some bd => some (none, bd)
    | none => none

/-- A PCI device record, as built by `get_pci_devices_mm` / `get_iommu_groups`
(`pci.py`).  Python device dictionaries always carry a `bdf` key; every other
key may be absent, which is modelled with `Option` (so `d.get(k, '')`
becomes `getD "" `). -/
structure DeviceRec where
  bdf : String
  cls : Option String := none
  name : Option String := none
  vendor : Option String := none
  vendor_id : Option String := none
  device_id : Option String := none
  driver : Option String := none
  deriving DecidableEq, Repr

/-- A GPU record, as built by `get_gpus` (`pci.py` lines 141-148: the keys are
always present). -/
structure GpuRec where
  bdf : String
  description : String
  vendor : String
  vendor_id : String
  device_id : String
  driver : String
  deriving DecidableEq, Repr

/-- An IOMMU-group mapping: group id to member devices, in insertion order
(`Dict[int, List[Dict[str, str]]]`). -/
abbrev IommuGroups := List (Nat × List DeviceRec)

/-- The nested iteration of `pci.py` lines 463-464 flattened into the ordered
list of (device, group id) pairs it visits. -/
def groupPairs (groups : IommuGroups) : List (DeviceRec × Nat) :=
  groups.flatMap (fun g => g.2.map (fun d => (d, g.1)))

/-- The test at `pci.py` line 471: `bus_device in device_bdf`
(Python substring containment of the domain-less bus:device part). -/
def busDeviceMatch (busDevice : String) (d : DeviceRec) : Bool :=
  isSubstr busDevice.data d.bdf.data

/-- The test at `pci.py` line 473:
`short_device_bdf == short_gpu_bdf or device_bdf.endswith(short_gpu_bdf)`. -/
def exactMatch (shortGpuBdf : String) (d : DeviceRec) : Bool :=
  shortForm d.bdf = shortGpuBdf || isSuffixL shortGpuBdf.data d.bdf.data

/-- Loop state of `find_gpu_related_devices` (`pci.py` lines 456-458):
`primary_gpu_group_id`, `found_primary_gpu`, `all_related_devices`. -/
structure ScanState where
  primary : Option Nat
  found : Bool
  related : List (DeviceRec × Nat)
  deriving DecidableEq, Repr

/-- One iteration of the loop body at `pci.py` lines 464-480. -/
def scanStep (busDevice shortGpuBdf : String) (st : ScanState)
    (p : DeviceRec × Nat) : ScanState :=
  if busDeviceMatch busDevice p.1 then
    let st' :=
      if exactMatch shortGpuBdf p.1 then
        { st with primary := some p.2, found := true }
      else st
    { st' with related := st'.related ++ [p] }
  else st

/-- `find_gpu_related_devices` (`pci.py` lines 411-501).  Returns the primary
IOMMU group id of the selected GPU and the list of related (device, group id)
pairs.  The guard on line 427 (`'bdf' not in gpu or not iommu_groups`), the
BDF parse failure on line 438, and the not-found case on line 482 all return
`(None, [])`. -/
def find_gpu_related_devices (gpu : DeviceRec) (iommu_groups : IommuGroups) :
    Option Nat × List (DeviceRec × Nat) :=
  if iommu_groups.isEmpty then (none, [])
  else
    match parseBdf gpu.bdf with
    | none => (none, [])
    | some (_, busDevice) =>
      let shortGpuBdf := shortForm gpu.bdf
      let st := (groupPairs iommu_groups).foldl
        (scanStep busDevice shortGpuBdf) ⟨none, false, []⟩
      if st.found then (st.primary, st.related) else (none, [])

/-- The id-pair extraction at `pci.py` lines 515-519: a device contributes
`"vendor_id:device_id"` only when both fields are present and non-empty
(Python truthiness of `device.get('vendor_id', '')`). -/
def idPairOf (d : DeviceRec) : Option String :=
  let v := d.vendor_id.getD ""
  let i := d.device_id.getD ""
  if v ≠ "" && i ≠ "" then some (v ++ ":" ++ i) else none

/-- The id pairs contributed by a related-device list, in traversal order
(with duplicates), before the set collapses them. -/
def idsOf (related_devices : List (DeviceRec × Nat)) : List String :=
  related_devices.filterMap (fun p => idPairOf p.1)

/-- `get_device_ids` (`pci.py` lines 504-530): collect the id pairs into a
set (`ids = set()` plus `ids.add`) and return `sorted(list(ids))` — the
ascending list of the distinct pairs. -/
def get_device_ids (related_devices : List (DeviceRec × Nat)) : List String :=
  ((idsOf related_devices).dedup).insertionSort (· ≤ ·)

/-- The display-class test of `get_gpus` (`pci.py` lines 135-138): the
lower-cased class string contains one of the three markers. -/
def isDisplayClass (cls : String) : Bool :=
  let c := (pyLower cls).data
  isSubstr "vga".data c || isSubstr "3d controller".data c ||
    isSubstr "display controller".data c

/-- The vendor shorthand detection of `get_gpus` (`pci.py` lines 150-167):
scan the lower-cased name+vendor text for known vendor markers. -/
def detectVendor (d : DeviceRec) : String :=
  let vn := (pyLower (d.name.getD "")).data ++ ' ' :: (pyLower (d.vendor.getD "")).data
  if isSubstr "nvidia".data vn then "NVIDIA"
  else if isSubstr "amd".data vn || isSubstr "ati".data vn ||
          isSubstr "radeon".data vn then "AMD"
  else if isSubstr "intel".data vn then "Intel"
  else d.vendor.getD "Unknown"

/-- The GPU record built at `pci.py` lines 141-167 for one matching device. -/
def mkGpuRec (bdf : String) (d : DeviceRec) : GpuRec where
  bdf := bdf
  description := d.name.getD "Unknown GPU"
  vendor := detectVendor d
  vendor_id := d.vendor_id.getD ""
  device_id := d.device_id.getD ""
  driver := d.driver.getD "None"

/-- `get_gpus` (`pci.py` lines 113-185) applied to an already-obtained PCI
device map (`get_pci_devices_mm` is external command I/O; its result — an
insertion-ordered dictionary — is the `pci_devices` parameter).  An empty
(or absent, i.e. falsy) map returns `[]` (line 125); otherwise each device
whose class matches a display marker is appended in discovery order. -/
def get_gpus (pci_devices : List (String × DeviceRec)) : List GpuRec :=
  if pci_devices.isEmpty then []
  else pci_devices.foldl
    (fun acc p =>
      if isDisplayClass (p.2.cls.getD "") then acc ++ [mkGpuRec p.1 p.2]
      else acc) []

/-- Validity of a Python decimal-digit run as accepted by `int()` after an
optional sign: non-empty, starts and ends with a digit, underscores only
singly and between digits. -/
def numBodyOk : List Char → Bool
  | [] => false
  | [c] => c.isDigit
  | c :: d :: rest =>
    c.isDigit && (if d = '_' then numBodyOk rest else numBodyOk (d :: rest))

/-- Numeric value of a digit run (underscores removed beforehand). -/
def digitsValue (l : List Char) : Nat :=
  (l.filter (· ≠ '_')).foldl (fun n c => 10 * n + (c.toNat - '0'.toNat)) 0

/-- Python `int(s)` on ASCII text: surrounding whitespace tolerated, optional
sign, decimal digits with single underscores between digits; `none` models a
raised `ValueError`.  (Python additionally accepts non-ASCII unicode digits,
which are outside this model's alphabet of interest.) -/
def pyInt (s : String) : Option Int :=
  match pyStripL s.data with
  | '+' :: rest => if numBodyOk rest then some (digitsValue rest) else none
  | '-' :: rest => if numBodyOk rest then some (-(digitsValue rest : Int)) else none
  | l => if numBodyOk l then some (digitsValue l) else none

/-- The selection step of `find_gpu_for_passthrough` (`pci.py` lines
267-290), operating on the AMD candidate list: a single candidate is
returned directly; otherwise the user's response (`input(...)`) is stripped
and parsed with `int()`, a 1-based in-range index selects that candidate,
and any other response returns `None`. -/
def selectAmdGpu (amd_gpus : List GpuRec) (response : String) : Option GpuRec :=
  if amd_gpus.length = 1 then amd_gpus.head?
  else
    let selection := pyStrip response
    match pyInt selection with
    | some n =>
      let index : Int := n - 1
      if 0 ≤ index ∧ index < (amd_gpus.length : Int) then amd_gpus[index.toNat]?
      else none
    | none => none

/-- `find_gpu_for_passthrough` (`pci.py` lines 240-290).  The terminal read
`input(...)` is modelled by the `response` parameter. -/
def find_gpu_for_passthrough (gpus : List GpuRec) (response : String) :
    Option GpuRec :=
  let amd_gpus := gpus.filter (fun g => g.vendor == "AMD")
  let non_amd_gpus := gpus.filter (fun g => g.vendor != "AMD")
  if amd_gpus.isEmpty then none
  else if non_amd_gpus.isEmpty then none
  else selectAmdGpu amd_gpus response

/-- The legacy `find_gpu_for_passthrough` (`vfio.py` lines 468-496): with
multiple AMD candidates, a valid 1-based index selects that candidate, but an
invalid (non-numeric or out-of-range) response falls through to
`return amd_gpus[0]`.  `int(choice)` itself tolerates surrounding
whitespace, which `pyInt` models. -/
def find_gpu_for_passthrough_legacy (gpus : List GpuRec) (response : String) :
    Option GpuRec :=
  let amd_gpus := gpus.filter (fun g => g.vendor == "AMD")
  if amd_gpus.isEmpty then none
  else if 1 < amd_gpus.length then
    match pyInt response with
    | some n =>
      let index : Int := n - 1
      if 0 ≤ index ∧ index < (amd_gpus.length : Int) then amd_gpus[index.toNat]?
      else amd_gpus.head?
    | none => amd_gpus.head?
  else amd_gpus.head?

/-- The module-level memoizing cache `_SYSTEM_CACHE` (`utils.py` line 13),
modelled as an explicit association list threaded through calls. -/
abbrev SysCache (α : Type) := List (String × α)

/-- The cache-key construction of the `cached_result` decorator
(`utils.py` lines 63-70). -/
def cacheKeyOf (key : String) (args : List String)
    (kwargs : List (String × String)) : String :=
  if args.isEmpty && kwargs.isEmpty then key
  else
    let kwarg_strs := (kwargs.insertionSort (fun a b => a.1 ≤ b.1)).map
      (fun kv => kv.1 ++ "=" ++ kv.2)
    key ++ "_" ++ String.intercalate "_" args ++ "_" ++
      String.intercalate "_" kwarg_strs

/-- The memoized call of `cached_result` (`utils.py` lines 72-74): compute
and store only when the key is absent, otherwise return the stored value
unchanged. -/
def cachedCall {α : Type} (cache : SysCache α) (cache_key : String)
    (compute : Unit → α) : α × SysCache α :=
  match cache.lookup cache_key with
  | some v => (v, cache)
  | none =>
    let v := compute ()
    (v, cache ++ [(cache_key, v)])

/-- Two successive discovery passes within one process run: the module cache
starts empty, the first pass queries the system in state `f1`, the second
pass issues the same cached query (same key) against the system in state
`f2`. -/
def runCachedTwice {α : Type} (key : String) (f1 f2 : Unit → α) : α × α :=
  let r1 := cachedCall ([] : SysCache α) key f1
  let r2 := cachedCall r1.2 key f2
  (r1.1, r2.1)

/-- One subdirectory of `/sys/kernel/iommu_groups` as seen by
`get_iommu_groups` (`pci.py` lines 330-384): its numeric name, whether its
`devices` subdirectory exists, and the device-link names inside it. -/
structure GroupDir where
  gid : Nat
  devicesDirExists : Bool
  deviceLinks : List String
  deriving DecidableEq, Repr

/-- Loop body of `get_iommu_groups` (`pci.py` lines 330-384) for one group
directory: skipped when the `devices` subdirectory is missing or holds no
links, otherwise the enriched member records are appended under the group
id.  The per-device record construction of lines 340-380 (merging the PCI
map or reading sysfs attribute files — both external I/O) is abstracted as
the `enrich` oracle; the source appends the resulting record unconditionally
for every link. -/
def iommuGroupStep (enrich : String → DeviceRec) (m : IommuGroups)
    (g : GroupDir) : IommuGroups :=
  if !g.devicesDirExists then m
  else
    let devs := g.deviceLinks.map enrich
    if devs.isEmpty then m else m ++ [(g.gid, devs)]

/-- `get_iommu_groups` (`pci.py` lines 293-408) over a sysfs snapshot: `none`
when the `iommu_groups` directory is missing (line 308), when its listing is
empty (line 320), or when no usable group was collected (line 389).  Groups
are visited sorted by numeric name. -/
def get_iommu_groups (iommuDirExists : Bool) (groupDirs : List GroupDir)
    (enrich : String → DeviceRec) : Option IommuGroups :=
  if !iommuDirExists then none
  else if groupDirs.isEmpty then none
  else
    let sortedDirs := groupDirs.insertionSort (fun a b => a.gid ≤ b.gid)
    let iommu_map := sortedDirs.foldl (iommuGroupStep enrich) ([] : IommuGroups)
    if iommu_map.isEmpty then none else some iommu_map

/-- Python `line.split(' "')` — split on the two-character separator,
left-to-right, non-overlapping (`acc` holds the current chunk reversed). -/
def splitSpaceQuoteAux (acc : List Char) : List Char → List (List Char)
  | [] => [acc.reverse]
  | ' ' :: '"' :: rest => acc.reverse :: splitSpaceQuoteAux [] rest
  | c :: rest => splitSpaceQuoteAux (c :: acc) rest

/-- Python `line.split(' "')`. -/
def pySplitSpaceQuote (l : List Char) : List (List Char) :=
  splitSpaceQuoteAux [] l

/-- `re.search(r'\[([0-9a-fA-F]{4}):([0-9a-fA-F]{4})\]', text)`
(`pci.py` lines 67/73): leftmost occurrence of a bracketed
vendor:device id pair. -/
def findIdPair : List Char → Option (String × String)
  | [] => none
  | c :: cs =>
    match c, cs with
    | '[', a :: b :: c2 :: d :: ':' :: e :: f :: g :: h :: ']' :: _ =>
      if isHexChar a && isHexChar b && isHexChar c2 && isHexChar d &&
         isHexChar e && isHexChar f && isHexChar g && isHexChar h then
        some (String.mk [a, b, c2, d], String.mk [e, f, g, h])
      else findIdPair cs
    | _, _ => findIdPair cs

/-- Prefix of a list before the first occurrence of `c` (the whole list when
`c` does not occur). -/
def takeBeforeChar (c : Char) : List Char → List Char
  | [] => []
  | d :: ds => if d = c then [] else d :: takeBeforeChar c ds

/-- Drop trailing whitespace. -/
def rstripWs (l : List Char) : List Char :=
  (l.reverse.dropWhile pyIsSpace).reverse

/-- `re.sub(r'\s*\[.*?\]$', '', v)` (`pci.py` line 83): when the text ends in
`]` and contains a `[`, the leftmost match removes everything from the
whitespace run preceding the first `[` through the end; otherwise the text
is unchanged. -/
def reSubTrailingBracket (l : List Char) : List Char :=
  if l.getLast? = some ']' && l.contains '[' then
    rstripWs (takeBeforeChar '[' l)
  else l

/-- Outcome of processing one `lspci -mm` output line
(`pci.py` lines 50-84). -/
inductive MMLineResult where
  | skip
  | entry (bdf : String) (r : DeviceRec)
  | err
  deriving DecidableEq, Repr

/-- One iteration of the `-mm` parsing loop (`pci.py` lines 50-84):
`parts = line.strip().split(' "')`; fewer than 3 parts skips the line
(line 54); otherwise the record is built — accessing `parts[3]` (line 62),
which raises an uncaught `IndexError` (`err`) when exactly 3 parts are
present. -/
def processMMLine (line : String) : MMLineResult :=
  let parts := pySplitSpaceQuote (pyStripL line.data)
  match parts with
  | p0 :: p1 :: p2 :: rest =>
    match rest with
    | [] => .err
    | p3 :: _ =>
      let bdf := String.mk (pyStripL p0)
      let ids : Option (String × String) :=
        match findIdPair p2 with
        | some vi => some vi
        | none => findIdPair p3
      let vendor_name := String.mk (pyStripL (reSubTrailingBracket (stripQuotesL p3)))
      .entry bdf
        { bdf := bdf
          cls := some (String.mk (stripQuotesL p1))
          name := some (String.mk (stripQuotesL p2))
          vendor := some vendor_name
          vendor_id := some ((ids.map Prod.fst).getD "")
          device_id := some ((ids.map Prod.snd).getD "")
          driver := some "None" }
  | _ => .skip

/-- Python dict assignment `devices[bdf] = rec`: replace in place when the
key exists (a dict keeps the key's original position), else append. -/
def upsert (m : List (String × DeviceRec)) (k : String) (v : DeviceRec) :
    List (String × DeviceRec) :=
  if m.any (fun p => p.1 == k) then
    m.map (fun p => if p.1 == k then (k, v) else p)
  else m ++ [(k, v)]

/-- The `-mm` parsing loop of `get_pci_devices_mm` (`pci.py` lines 47-84)
over the output lines: builds the device map line by line; an uncaught
exception while processing any line aborts the whole parse (`none`). -/
def parse_pci_mm (lines : List String) : Option (List (String × DeviceRec)) :=
  lines.foldl
    (fun acc line =>
      match acc with
      | none => none
      | some m =>
        match processMMLine line with
        | .skip => some m
        | .entry bdf r => some (upsert m bdf r)
        | .err => none)
    (some [])

/-- Modelled from the spec (claim C1's comparison key): the bus/slot part of
a bus address — "its address minus the trailing '.function', after
normalizing the domain-bearing and domain-less spellings" — here computed in
the domain-less spelling. -/
def specBusSlot (s : String) : String :=
  let t := shortForm s
  let ps := pySplitChar '.' t.data
  if ps.length ≤ 1 then t
  else String.mk (List.intercalate ['.'] ps.dropLast)

/-! Sample records used by the concrete witnesses and counterexamples. -/

/-- A sample AMD GPU record. -/
def gpuAmdA : GpuRec :=
  { bdf := "01:00.0", description := "Radeon A", vendor := "AMD",
    vendor_id := "1002", device_id := "73bf", driver := "amdgpu" }

/-- A second sample AMD GPU record. -/
def gpuAmdB : GpuRec :=
  { bdf := "02:00.0", description := "Radeon B", vendor := "AMD",
    vendor_id := "1002", device_id := "73c0", driver := "None" }

/-- A sample NVIDIA GPU record. -/
def gpuNv : GpuRec :=
  { bdf := "03:00.0", description := "GeForce", vendor := "NVIDIA",
    vendor_id := "10de", device_id := "2204", driver := "nvidia" }

/-! Helper lemmas about the selection functions. -/

/-- Any GPU returned by the selection step is one of the candidates. -/
theorem selectAmdGpu_mem {l : List GpuRec} {c : String} {g : GpuRec}
    (h : selectAmdGpu l c = some g) : g ∈ l := by
  unfold selectAmdGpu at h
  split at h
  · exact List.mem_of_mem_head? h
  · dsimp only at h
    split at h
    · split at h
      · exact List.getElem?_mem h
      · exact absurd h (by simp)
    · exact absurd h (by simp)

/-- C5: selection with exactly one candidate returns that candidate directly,
for every chooser response — the chooser capability is never consulted
(`pci.py` lines 267-270). -/
theorem select_single_candidate_no_prompt (g : GpuRec) (c₁ c₂ : String) :
    selectAmdGpu [g] c₁ = some g ∧ selectAmdGpu [g] c₁ = selectAmdGpu [g] c₂ := by
  constructor <;> simp [selectAmdGpu]

/-- C9: `find_gpu_for_passthrough` returns a device only when the input
contains both an AMD GPU and a non-AMD GPU; any returned device has vendor
"AMD"; and when either side is absent the result is `None` for every chooser
response (so the chooser is never consulted). -/
theorem find_gpu_for_passthrough_guards (gpus : List GpuRec) (c : String) :
    (∀ g, find_gpu_for_passthrough gpus c = some g →
      g.vendor = "AMD" ∧ (∃ x ∈ gpus, x.vendor = "AMD") ∧
        (∃ x ∈ gpus, x.vendor ≠ "AMD")) ∧
    (((∀ x ∈ gpus, x.vendor ≠ "AMD") ∨ (∀ x ∈ gpus, x.vendor = "AMD")) →
      find_gpu_for_passthrough gpus c = none ∧
        ∀ c', find_gpu_for_passthrough gpus c' = none) := by
  constructor
  · intro g h
    unfold find_gpu_for_passthrough at h
    dsimp only at h
    split at h
    · exact absurd h (by simp)
    · split at h
      · exact absurd h (by simp)
      · rename_i hamd hnon
        have hg := selectAmdGpu_mem h
        have hg' := List.mem_filter.mp hg
        exact ⟨by simpa using hg'.2, by simpa [List.isEmpty_iff] using hamd,
          by simpa [List.isEmpty_iff] using hnon⟩
  · intro h
    have : ∀ c', find_gpu_for_passthrough gpus c' = none := by
      intro c'
      unfold find_gpu_for_passthrough
      rcases h with h | h
      · have : gpus.filter (fun g => g.vendor == "AMD") = [] :=
          List.filter_eq_nil_iff.mpr (fun a ha => by simpa using h a ha)
        simp [this]
      · have : gpus.filter (fun g => g.vendor != "AMD") = [] :=
          List.filter_eq_nil_iff.mpr (fun a ha => by simpa using h a ha)
        simp [this]
    exact ⟨this c, this⟩

/-- Witness for C9 at a concrete input: with one AMD and one NVIDIA GPU the
returned device is the AMD one, and with only AMD GPUs the result is `None`. -/
theorem find_gpu_for_passthrough_guards_witness :
    (gpuAmdA.vendor = "AMD" ∧ (∃ x ∈ [gpuAmdA, gpuNv], x.vendor = "AMD") ∧
      (∃ x ∈ [gpuAmdA, gpuNv], x.vendor ≠ "AMD")) ∧
    find_gpu_for_passthrough [gpuAmdA, gpuAmdB] "1" = none := by
  refine ⟨(find_gpu_for_passthrough_guards [gpuAmdA, gpuNv] "junk").1 gpuAmdA
      (by decide), ?_⟩
  exact ((find_gpu_for_passthrough_guards [gpuAmdA, gpuAmdB] "1").2
    (Or.inr (by decide))).1

/-- C2 counterexample: the claim also covers the legacy revision
(`vfio.py` lines 480-496), where a non-numeric chooser response does NOT
fail the selection — the code silently falls back to the first AMD
candidate.  Concretely, with two AMD candidates and the response `"abc"`
(which `int()` rejects), the legacy function returns the first candidate. -/
theorem legacy_invalid_choice_falls_back :
    pyInt "abc" = none ∧
    find_gpu_for_passthrough_legacy [gpuAmdA, gpuAmdB] "abc" = some gpuAmdA ∧
    find_gpu_for_passthrough_legacy [gpuAmdA, gpuAmdB] "0" = some gpuAmdA := by
  refine ⟨by decide, by decide, by decide⟩

/-- C2 (amended): in the packaged implementation (`pci.py` lines 271-290),
with `N > 1` candidates, a chooser response parsing to `k` with `1 ≤ k ≤ N`
selects candidate `k-1` (0-based), and every response that fails to parse as
an integer or parses outside `[1, N]` yields `None` — no fallback.  (The
legacy `vfio.py` revision instead falls back to the first candidate, see the
counterexample.) -/
theorem select_numbered_candidate (cands : List GpuRec) (resp : String)
    (hlen : 1 < cands.length) :
    (∀ k : Int, pyInt (pyStrip resp) = some k →
      ((1 ≤ k ∧ k ≤ (cands.length : Int)) →
        selectAmdGpu cands resp = cands[(k - 1).toNat]? ∧
          (k - 1).toNat < cands.length) ∧
      ((k < 1 ∨ (cands.length : Int) < k) → selectAmdGpu cands resp = none)) ∧
    (pyInt (pyStrip resp) = none → selectAmdGpu cands resp = none) := by
  have hne : ¬ cands.length = 1 := by omega
  constructor
  · intro k hk
    constructor
    · intro hrange
      have hlt : (k - 1).toNat < cands.length := by omega
      refine ⟨?_, hlt⟩
      unfold selectAmdGpu
      simp only [hne, if_false, hk]
      have : (0 : Int) ≤ k - 1 ∧ k - 1 < (cands.length : Int) := by omega
      simp [this]
    · intro hout
      unfold selectAmdGpu
      simp only [hne, if_false, hk]
      have : ¬ ((0 : Int) ≤ k - 1 ∧ k - 1 < (cands.length : Int)) := by omega
      rw [if_neg this]
  · intro hk
    unfold selectAmdGpu
    simp [hne, hk]

/-- Witness for C2's amended theorem at concrete inputs: response "2" picks
the second of three candidates, response "4" and response "abc" fail. -/
theorem select_numbered_candidate_witness :
    selectAmdGpu [gpuAmdA, gpuAmdB, gpuNv] "2" = some gpuAmdB ∧
    selectAmdGpu [gpuAmdA, gpuAmdB, gpuNv] "4" = none ∧
    selectAmdGpu [gpuAmdA, gpuAmdB, gpuNv] "abc" = none := by
  have h2 := select_numbered_candidate [gpuAmdA, gpuAmdB, gpuNv] "2" (by decide)
  have h4 := select_numbered_candidate [gpuAmdA, gpuAmdB, gpuNv] "4" (by decide)
  have habc := select_numbered_candidate [gpuAmdA, gpuAmdB, gpuNv] "abc" (by decide)
  refine ⟨?_, ?_, ?_⟩
  · exact (((h2.1 2 (by decide)).1 (by decide)).1).trans (by decide)
  · exact (h4.1 4 (by decide)).2 (by decide)
  · exact habc.2 (by decide)

/-- C4 counterexample: the memoizing cache (`utils.py` lines 52-76) is a
module-level singleton that is never invalidated.  Two successive discovery
passes in one process issue the same cache key
(`"pci_devices_mm__debug=False"`); the second pass receives the first
pass's stored value (here `1`) even though the current system state would
yield a different value (here `2`).  The claim's predicted second-pass
result is the recomputed `2`. -/
theorem second_pass_reuses_cache :
    cacheKeyOf "pci_devices_mm" [] [("debug", "False")] =
      "pci_devices_mm__debug=False" ∧
    runCachedTwice "pci_devices_mm__debug=False"
      (fun _ => (1 : Nat)) (fun _ => 2) = (1, 1) ∧
    (fun _ : Unit => (2 : Nat)) () ≠ 1 := by
  refine ⟨by decide, by decide, by decide⟩

/-- C4 (amended): the `cached_result` cache persists for the whole process:
a second pass that issues the same cache key is served the first pass's
memoized value — the underlying query function is not re-invoked and the
cache is never invalidated between passes. -/
theorem cache_reused_across_passes {α : Type} (key : String)
    (f1 f2 : Unit → α) :
    runCachedTwice key f1 f2 = (f1 (), f1 ()) ∧
    (∀ (cache : SysCache α) (v : α), cache.lookup key = some v →
      cachedCall cache key f2 = (v, cache)) := by
  constructor
  · simp [runCachedTwice, cachedCall, List.lookup]
  · intro cache v hv
    simp [cachedCall, hv]

/-- Witness for C4's amended theorem at a concrete input. -/
theorem cache_reused_across_passes_witness :
    runCachedTwice "iommu_groups" (fun _ => (10 : Nat)) (fun _ => 20) =
      (10, 10) ∧
    cachedCall [("iommu_groups", (10 : Nat))] "iommu_groups" (fun _ => 20) =
      (10, [("iommu_groups", 10)]) := by
  refine ⟨(cache_reused_across_passes "iommu_groups"
      (fun _ => (10 : Nat)) (fun _ => 20)).1, ?_⟩
  exact (cache_reused_across_passes "iommu_groups"
    (fun _ => (10 : Nat)) (fun _ => 20)).2 _ 10 (by decide)

/-- A group directory that contributes nothing: its `devices` subdirectory is
missing or holds no links. -/
def unusableGroup (g : GroupDir) : Prop :=
  g.devicesDirExists = false ∨ g.deviceLinks = []

/-- Folding the group step over unusable groups leaves the map unchanged. -/
theorem foldl_iommuGroupStep_unusable (enrich : String → DeviceRec) :
    ∀ (l : List GroupDir) (m : IommuGroups), (∀ g ∈ l, unusableGroup g) →
      l.foldl (iommuGroupStep enrich) m = m := by
  intro l
  induction l with
  | nil => intro m _; rfl
  | cons g t ih =>
    intro m h
    have hg : iommuGroupStep enrich m g = m := by
      rcases h g (by simp) with hg | hg <;>
        simp [iommuGroupStep, hg]
    rw [List.foldl_cons, hg]
    exact ih m (fun x hx => h x (by simp [hx]))

/-- Every entry the group-step fold adds has a non-empty device list. -/
theorem foldl_iommuGroupStep_mem (enrich : String → DeviceRec) :
    ∀ (l : List GroupDir) (m : IommuGroups),
      ∀ p ∈ l.foldl (iommuGroupStep enrich) m, p ∈ m ∨ p.2 ≠ [] := by
  intro l
  induction l with
  | nil => intro m p hp; exact Or.inl hp
  | cons g t ih =>
    intro m p hp
    rcases ih (iommuGroupStep enrich m g) p hp with hm | hne
    · unfold iommuGroupStep at hm
      split at hm
      · exact Or.inl hm
      · dsimp only at hm
        split at hm
        · exact Or.inl hm
        · rename_i hdevs
          rcases List.mem_append.mp hm with hm | hm
          · exact Or.inl hm
          · right
            have : p = (g.gid, g.deviceLinks.map enrich) := by simpa using hm
            rw [this]
            simpa [List.isEmpty_iff] using hdevs
    · exact Or.inr hne

/-- C6: `get_iommu_groups` returns `None` when the sysfs path is missing and
also when the path exists but contains zero usable groups (empty listing, or
every group lacking a `devices` directory or holding no device links); and
any non-`None` result maps at least one group id to a non-empty device
list. -/
theorem get_iommu_groups_absent_or_usable (e : Bool) (gds : List GroupDir)
    (enrich : String → DeviceRec) :
    get_iommu_groups false gds enrich = none ∧
    ((∀ g ∈ gds, unusableGroup g) → get_iommu_groups e gds enrich = none) ∧
    (∀ m, get_iommu_groups e gds enrich = some m → ∃ p ∈ m, p.2 ≠ []) := by
  refine ⟨by simp [get_iommu_groups], ?_, ?_⟩
  · intro h
    have hall : ∀ g ∈ gds.insertionSort (fun a b => a.gid ≤ b.gid),
        unusableGroup g := by
      intro g hg
      exact h g ((List.perm_insertionSort _ gds).mem_iff.mp hg)
    unfold get_iommu_groups
    split
    · rfl
    · split
      · rfl
      · dsimp only
        rw [foldl_iommuGroupStep_unusable enrich _ _ hall]
        rfl
  · intro m hm
    unfold get_iommu_groups at hm
    split at hm
    · exact absurd hm (by simp)
    · split at hm
      · exact absurd hm (by simp)
      · dsimp only at hm
        split at hm
        · exact absurd hm (by simp)
        · rename_i hmap
          injection hm with hm
          subst hm
          obtain ⟨p, hp⟩ := List.exists_mem_of_ne_nil _
            (by simpa [List.isEmpty_iff] using hmap)
          rcases foldl_iommuGroupStep_mem enrich _ _ p hp with h0 | h0
          · exact absurd h0 (List.not_mem_nil p)
          · exact ⟨p, hp, h0⟩

/-- Witness for C6 at concrete inputs: an existing path with one usable and
one unusable group yields a map whose sole entry has a non-empty device
list; an all-unusable listing yields `None`. -/
theorem get_iommu_groups_absent_or_usable_witness :
    (∃ p ∈ [((2 : Nat), [DeviceRec.mk "0b:00.0" none none none none none none])],
      p.2 ≠ []) ∧
    get_iommu_groups true [⟨7, true, []⟩, ⟨3, false, ["x"]⟩]
      (fun b => DeviceRec.mk b none none none none none none) = none := by
  constructor
  · exact (get_iommu_groups_absent_or_usable true
      [⟨2, true, ["0b:00.0"]⟩, ⟨5, false, ["y"]⟩]
      (fun b => DeviceRec.mk b none none none none none none)).2.2 _ (by decide)
  · exact (get_iommu_groups_absent_or_usable true
      [⟨7, true, []⟩, ⟨3, false, ["x"]⟩]
      (fun b => DeviceRec.mk b none none none none none none)).2.1
      (by intro g hg; fin_cases hg <;> simp [unusableGroup])

/-- The id-pair list returned by `get_device_ids` is duplicate-free. -/
theorem get_device_ids_nodup (l : List (DeviceRec × Nat)) :
    (get_device_ids l).Nodup := by
  unfold get_device_ids
  exact ((List.perm_insertionSort _ _).nodup_iff).mpr (List.nodup_dedup _)

/-- The id-pair list returned by `get_device_ids` is sorted ascending. -/
theorem get_device_ids_sorted (l : List (DeviceRec × Nat)) :
    (get_device_ids l).Sorted (· ≤ ·) :=
  List.sorted_insertionSort _ _

/-- Membership in the result of `get_device_ids` is membership in the raw
id-pair list. -/
theorem get_device_ids_mem (l : List (DeviceRec × Nat)) (a : String) :
    a ∈ get_device_ids l ↔ a ∈ idsOf l := by
  unfold get_device_ids
  rw [List.mem_insertionSort, List.mem_dedup]

/-- Two related-device lists contributing the same set of id pairs produce
the identical result list. -/
theorem get_device_ids_eq_of_mem_iff {l₁ l₂ : List (DeviceRec × Nat)}
    (h : ∀ a, a ∈ idsOf l₁ ↔ a ∈ idsOf l₂) :
    get_device_ids l₁ = get_device_ids l₂ := by
  refine List.eq_of_perm_of_sorted ?_ (get_device_ids_sorted l₁)
    (get_device_ids_sorted l₂)
  refine (List.perm_ext_iff_of_nodup (get_device_ids_nodup l₁)
    (get_device_ids_nodup l₂)).mpr ?_
  intro a
  rw [get_device_ids_mem, get_device_ids_mem]
  exact h a

/-- C7: `get_device_ids` has set semantics — a permutation of the input, or
the input concatenated with itself, yields the same result; a record whose
vendor id or device id is missing (absent key or empty string) is skipped
rather than an error; and the empty input yields the (valid) empty result. -/
theorem get_device_ids_set_semantics (l₁ l₂ : List (DeviceRec × Nat))
    (d : DeviceRec) (g : Nat) :
    (l₁.Perm l₂ → get_device_ids l₁ = get_device_ids l₂) ∧
    get_device_ids (l₁ ++ l₁) = get_device_ids l₁ ∧
    ((d.vendor_id.getD "" = "" ∨ d.device_id.getD "" = "") →
      get_device_ids ((d, g) :: l₁) = get_device_ids l₁) ∧
    get_device_ids [] = ([] : List String) := by
  refine ⟨?_, ?_, ?_, rfl⟩
  · intro hp
    exact get_device_ids_eq_of_mem_iff
      (fun a => (hp.filterMap (fun p => idPairOf p.1)).mem_iff)
  · refine get_device_ids_eq_of_mem_iff (fun a => ?_)
    unfold idsOf
    rw [List.filterMap_append, List.mem_append, or_self]
  · intro hmiss
    have hnone : idPairOf d = none := by
      unfold idPairOf
      rcases hmiss with h | h <;> simp [h]
    refine get_device_ids_eq_of_mem_iff (fun a => ?_)
    unfold idsOf
    rw [List.filterMap_cons, hnone]

/-- Witness for C7 at concrete inputs: a permuted pair of devices yields the
identical list, and a record with no vendor id is skipped. -/
theorem get_device_ids_set_semantics_witness :
    get_device_ids
        [(DeviceRec.mk "0b:00.0" none none none (some "1002") (some "73bf") none, 12),
         (DeviceRec.mk "0b:00.1" none none none (some "1002") (some "ab28") none, 12)] =
      get_device_ids
        [(DeviceRec.mk "0b:00.1" none none none (some "1002") (some "ab28") none, 12),
         (DeviceRec.mk "0b:00.0" none none none (some "1002") (some "73bf") none, 12)] ∧
    get_device_ids
        [(DeviceRec.mk "0c:00.0" none none none none (some "1234") none, 3)] = [] := by
  constructor
  · exact (get_device_ids_set_semantics _ _
      (DeviceRec.mk "x" none none none none none none) 0).1
      (List.Perm.swap _ _ [])
  · have h := ((get_device_ids_set_semantics [] []
      (DeviceRec.mk "0c:00.0" none none none none (some "1234") none) 3).2.2.1
      (Or.inl rfl))
    simpa using h

/-- C10: the output of `get_device_ids` is a canonical ordered list —
duplicate-free, sorted in ascending lexicographic order, and determined by
the multiset of inputs (any permutation produces the identical list). -/
theorem get_device_ids_canonical (l₁ l₂ : List (DeviceRec × Nat)) :
    (get_device_ids l₁).Nodup ∧ (get_device_ids l₁).Sorted (· ≤ ·) ∧
    (l₁.Perm l₂ → get_device_ids l₁ = get_device_ids l₂) := by
  refine ⟨get_device_ids_nodup l₁, get_device_ids_sorted l₁, ?_⟩
  intro hp
  exact get_device_ids_eq_of_mem_iff
    (fun a => (hp.filterMap (fun p => idPairOf p.1)).mem_iff)

/-- Witness for C10 at a concrete input: a permutation of a two-device list
(with a duplicate id pair) produces the identical sorted duplicate-free
list. -/
theorem get_device_ids_canonical_witness :
    get_device_ids
        [(DeviceRec.mk "0d:00.0" none none none (some "10de") (some "2204") none, 1),
         (DeviceRec.mk "0d:00.1" none none none (some "10de") (some "2204") none, 1)] =
      get_device_ids
        [(DeviceRec.mk "0d:00.1" none none none (some "10de") (some "2204") none, 1),
         (DeviceRec.mk "0d:00.0" none none none (some "10de") (some "2204") none, 1)] ∧
    get_device_ids
        [(DeviceRec.mk "0d:00.0" none none none (some "10de") (some "2204") none, 1),
         (DeviceRec.mk "0d:00.1" none none none (some "10de") (some "2204") none, 1)] =
      ["10de:2204"] := by
  refine ⟨(get_device_ids_canonical _ _).2.2 (List.Perm.swap _ _ []), by decide⟩

/-- The `get_gpus` accumulation loop appends exactly the display-class
devices, in order. -/
theorem get_gpus_foldl (l : List (String × DeviceRec)) :
    ∀ acc : List GpuRec,
      l.foldl
        (fun acc p =>
          if isDisplayClass (p.2.cls.getD "") then acc ++ [mkGpuRec p.1 p.2]
          else acc) acc =
      acc ++ (l.filter (fun p => isDisplayClass (p.2.cls.getD ""))).map
        (fun p => mkGpuRec p.1 p.2) := by
  induction l with
  | nil => intro acc; simp
  | cons p t ih =>
    intro acc
    rw [List.foldl_cons]
    by_cases hc : isDisplayClass (p.2.cls.getD "") = true
    · rw [if_pos hc, ih]
      simp [List.filter_cons, hc]
    · rw [if_neg hc, ih]
      simp [List.filter_cons, hc]

/-- C8: `get_gpus` returns, in discovery order, exactly one record per
device whose class string contains a display marker — the bus addresses of
the result are precisely the matching keys of the input map in order; when
no device matches, the result is empty; and (for a map with distinct keys,
as a Python dict guarantees) each matching device appears exactly once. -/
theorem get_gpus_display_filter (pci : List (String × DeviceRec)) :
    ((get_gpus pci).map GpuRec.bdf =
      (pci.filter (fun p => isDisplayClass (p.2.cls.getD ""))).map Prod.fst) ∧
    ((∀ p ∈ pci, isDisplayClass (p.2.cls.getD "") = false) →
      get_gpus pci = []) ∧
    ((pci.map Prod.fst).Nodup → ∀ p ∈ pci,
      isDisplayClass (p.2.cls.getD "") = true →
      ((get_gpus pci).map GpuRec.bdf).count p.1 = 1) := by
  have hfold : get_gpus pci =
      (pci.filter (fun p => isDisplayClass (p.2.cls.getD ""))).map
        (fun p => mkGpuRec p.1 p.2) := by
    unfold get_gpus
    split
    · rename_i hemp
      rw [List.isEmpty_iff.mp hemp]
      rfl
    · rw [get_gpus_foldl]
      rfl
  have hmap : (get_gpus pci).map GpuRec.bdf =
      (pci.filter (fun p => isDisplayClass (p.2.cls.getD ""))).map Prod.fst := by
    rw [hfold, List.map_map]
    rfl
  refine ⟨hmap, ?_, ?_⟩
  · intro h
    rw [hfold, List.filter_eq_nil_iff.mpr (fun a ha => by simp [h a ha])]
    rfl
  · intro hn p hp hc
    rw [hmap]
    have hsub : List.Sublist
        ((pci.filter (fun p => isDisplayClass (p.2.cls.getD ""))).map Prod.fst)
        (pci.map Prod.fst) :=
      (List.filter_sublist pci).map Prod.fst
    refine List.count_eq_one_of_mem (hn.sublist hsub) ?_
    exact List.mem_map.mpr ⟨p, List.mem_filter.mpr ⟨hp, hc⟩, rfl⟩

/-- Witness for C8 at a concrete input: one display device among two devices
is returned exactly once, and a map with no display device yields `[]`. -/
theorem get_gpus_display_filter_witness :
    ((get_gpus
        [("00:00.0", DeviceRec.mk "00:00.0" (some "Host bridge") none none none none none),
         ("0b:00.0", DeviceRec.mk "0b:00.0" (some "VGA compatible controller")
            (some "Navi 21") (some "AMD") (some "1002") (some "73bf") none)]).map
      GpuRec.bdf).count "0b:00.0" = 1 ∧
    get_gpus
        [("00:00.0", DeviceRec.mk "00:00.0" (some "Host bridge") none none none none none)] =
      [] := by
  constructor
  · exact (get_gpus_display_filter
      [("00:00.0", DeviceRec.mk "00:00.0" (some "Host bridge") none none none none none),
       ("0b:00.0", DeviceRec.mk "0b:00.0" (some "VGA compatible controller")
          (some "Navi 21") (some "AMD") (some "1002") (some "73bf") none)]).2.2
      (by decide)
      ("0b:00.0", DeviceRec.mk "0b:00.0" (some "VGA compatible controller")
          (some "Navi 21") (some "AMD") (some "1002") (some "73bf") none)
      (by decide) (by decide)
  · exact (get_gpus_display_filter
      [("00:00.0", DeviceRec.mk "00:00.0" (some "Host bridge")
          none none none none none)]).2.1 (by decide)

/-- C3 (code bug): the `-mm` parsing loop guards with `len(parts) < 3` but
then reads `parts[3]`, so an output line splitting into exactly three parts
(two occurrences of the separator, e.g. `aa "b" "c"`) raises an uncaught
`IndexError` that aborts the whole parse — the claim (and the guard's own
evident intent) is that an unmatched line is skipped and never crashes.
Lines with fewer parts are skipped, and well-formed lines parse into a
record. -/
theorem mm_three_part_line_crashes :
    processMMLine "aa \"b\" \"c\"" = MMLineResult.err ∧
    parse_pci_mm ["aa \"b\" \"c\""] = none ∧
    processMMLine "not a matching line" = MMLineResult.skip ∧
    parse_pci_mm ["not a matching line"] = some [] ∧
    processMMLine "00:00.0 \"Host bridge\" \"Root Complex [1022:1480]\" \"Advanced Micro Devices, Inc. [AMD]\"" =
      MMLineResult.entry "00:00.0"
        { bdf := "00:00.0"
          cls := some "Host bridge"
          name := some "Root Complex [1022:1480]"
          vendor := some "Advanced Micro Devices, Inc."
          vendor_id := some "1022"
          device_id := some "1480"
          driver := some "None" } := by
  refine ⟨by decide, by decide, by decide, by decide, by decide⟩

/-- The combined condition under which the scan records an exact primary-GPU
hit (`pci.py` lines 471-476): the substring test AND the exact-match test. -/
def fullMatch (busDevice shortGpuBdf : String) (p : DeviceRec × Nat) : Bool :=
  busDeviceMatch busDevice p.1 && exactMatch shortGpuBdf p.1

/-- Effect of one scan step on the related-device accumulator. -/
theorem scanStep_related (bd sG : String) (st : ScanState) (p : DeviceRec × Nat) :
    (scanStep bd sG st p).related =
      if busDeviceMatch bd p.1 then st.related ++ [p] else st.related := by
  unfold scanStep
  split
  · dsimp only
    split <;> rfl
  · rfl

/-- Effect of one scan step on the found flag. -/
theorem scanStep_found (bd sG : String) (st : ScanState) (p : DeviceRec × Nat) :
    (scanStep bd sG st p).found = (st.found || fullMatch bd sG p) := by
  unfold scanStep fullMatch
  split
  · rename_i hb
    dsimp only
    split
    · rename_i he
      simp [hb, he]
    · rename_i he
      simp [hb, Bool.eq_false_iff.mpr he]
  · rename_i hb
    simp [Bool.eq_false_iff.mpr hb]

/-- Effect of one scan step on the primary group id. -/
theorem scanStep_primary (bd sG : String) (st : ScanState) (p : DeviceRec × Nat) :
    (scanStep bd sG st p).primary =
      if fullMatch bd sG p then some p.2 else st.primary := by
  unfold scanStep fullMatch
  split
  · rename_i hb
    dsimp only
    split
    · rename_i he
      simp [hb, he]
    · rename_i he
      simp [hb, Bool.eq_false_iff.mpr he]
  · rename_i hb
    simp [Bool.eq_false_iff.mpr hb]

/-- The scan accumulates exactly the substring-matching pairs, in order. -/
theorem foldl_scan_related (bd sG : String) :
    ∀ (l : List (DeviceRec × Nat)) (st : ScanState),
      (l.foldl (scanStep bd sG) st).related =
        st.related ++ l.filter (fun p => busDeviceMatch bd p.1) := by
  intro l
  induction l with
  | nil => intro st; simp
  | cons p t ih =>
    intro st
    rw [List.foldl_cons, ih]
    rw [scanStep_related]
    by_cases hb : busDeviceMatch bd p.1 = true
    · rw [if_pos hb]
      simp [List.filter_cons, hb]
    · rw [if_neg hb]
      simp [List.filter_cons, hb]

/-- The found flag ends true exactly when some pair passes both tests. -/
theorem foldl_scan_found (bd sG : String) :
    ∀ (l : List (DeviceRec × Nat)) (st : ScanState),
      (l.foldl (scanStep bd sG) st).found =
        (st.found || l.any (fullMatch bd sG)) := by
  intro l
  induction l with
  | nil => intro st; simp
  | cons p t ih =>
    intro st
    rw [List.foldl_cons, ih, scanStep_found, List.any_cons, Bool.or_assoc]

/-- The primary group id ends as the group of the last pair passing both
tests (or the starting value when none does). -/
theorem foldl_scan_primary (bd sG : String) :
    ∀ (l : List (DeviceRec × Nat)) (st : ScanState),
      (l.foldl (scanStep bd sG) st).primary =
        (((l.filter (fullMatch bd sG)).map Prod.snd).getLast?).or st.primary := by
  intro l
  induction l with
  | nil => intro st; simp
  | cons p t ih =>
    intro st
    rw [List.foldl_cons, ih, scanStep_primary]
    by_cases hf : fullMatch bd sG p = true
    · rw [if_pos hf]
      rw [List.filter_cons_of_pos hf, List.map_cons]
      cases hrest : (t.filter (fullMatch bd sG)).map Prod.snd with
      | nil => simp
      | cons q rest =>
        rw [List.getLast?_cons_cons,
          List.getLast?_eq_getLast (q :: rest) (by simp)]
        simp
    · rw [if_neg hf, List.filter_cons_of_neg (by simpa using hf)]

/-- C1 (amended): when the selected GPU's bus address parses, the group map
is non-empty, and exactly one member pair passes the exact-address test,
`find_gpu_related_devices` returns that pair's group id as the primary
group, and the related list is exactly the in-order list of member pairs
whose bus address CONTAINS the domain-less `bus:device` prefix as a
substring (Python `in`) — `M + 1` pairs when `M` other members match, the
selected device's own pair included. -/
theorem find_gpu_related_devices_matches (gpu : DeviceRec)
    (groups : IommuGroups) (dom : Option String) (bd : String)
    (dex : DeviceRec) (gex : Nat)
    (hp : parseBdf gpu.bdf = some (dom, bd))
    (hne : groups ≠ [])
    (hex : (groupPairs groups).filter (fullMatch bd (shortForm gpu.bdf)) =
      [(dex, gex)]) :
    find_gpu_related_devices gpu groups =
      (some gex, (groupPairs groups).filter (fun p => busDeviceMatch bd p.1)) ∧
    (dex, gex) ∈ (find_gpu_related_devices gpu groups).2 := by
  have hmem : (dex, gex) ∈ (groupPairs groups) ∧
      fullMatch bd (shortForm gpu.bdf) (dex, gex) = true := by
    have : (dex, gex) ∈
        (groupPairs groups).filter (fullMatch bd (shortForm gpu.bdf)) := by
      rw [hex]; simp
    exact ⟨(List.mem_filter.mp this).1, (List.mem_filter.mp this).2⟩
  have heval : find_gpu_related_devices gpu groups =
      (some gex, (groupPairs groups).filter (fun p => busDeviceMatch bd p.1)) := by
    unfold find_gpu_related_devices
    rw [if_neg (by simpa [List.isEmpty_iff] using hne), hp]
    dsimp only
    have hfound : ((groupPairs groups).foldl
        (scanStep bd (shortForm gpu.bdf)) ⟨none, false, []⟩).found = true := by
      rw [foldl_scan_found]
      exact List.any_eq_true.mpr ⟨(dex, gex), hmem.1, hmem.2⟩
    rw [hfound, if_pos rfl, foldl_scan_primary, foldl_scan_related, hex]
    simp
  refine ⟨heval, ?_⟩
  rw [heval]
  refine List.mem_filter.mpr ⟨hmem.1, ?_⟩
  have hfull : busDeviceMatch bd dex = true ∧
      exactMatch (shortForm gpu.bdf) dex = true := by
    simpa [fullMatch] using hmem.2
  exact hfull.1

/-- Witness for C1's amended theorem on the specification's own scenario:
GPU `0000:0b:00.0` and its audio function `0000:0b:00.1` in group 12 —
both pairs are returned and the primary group is 12. -/
theorem find_gpu_related_devices_matches_witness :
    find_gpu_related_devices
        (DeviceRec.mk "0000:0b:00.0" (some "VGA compatible controller")
          none none (some "1002") (some "73bf") none)
        [(12, [DeviceRec.mk "0000:0b:00.0" (some "VGA compatible controller")
            none none (some "1002") (some "73bf") none,
          DeviceRec.mk "0000:0b:00.1" (some "Audio device")
            none none (some "1002") (some "ab28") none])] =
      (some 12,
        [(DeviceRec.mk "0000:0b:00.0" (some "VGA compatible controller")
            none none (some "1002") (some "73bf") none, 12),
         (DeviceRec.mk "0000:0b:00.1" (some "Audio device")
            none none (some "1002") (some "ab28") none, 12)]) := by
  have h := (find_gpu_related_devices_matches
    (DeviceRec.mk "0000:0b:00.0" (some "VGA compatible controller")
      none none (some "1002") (some "73bf") none)
    [(12, [DeviceRec.mk "0000:0b:00.0" (some "VGA compatible controller")
        none none (some "1002") (some "73bf") none,
      DeviceRec.mk "0000:0b:00.1" (some "Audio device")
        none none (some "1002") (some "ab28") none])]
    (some "0000") "0b:00"
    (DeviceRec.mk "0000:0b:00.0" (some "VGA compatible controller")
      none none (some "1002") (some "73bf") none) 12
    (by decide) (by decide) (by decide)).1
  exact h.trans (by decide)

/-- C1 counterexample: GPU `00:10.0` and an unrelated device `0000:10:00.0`
(bus/slot key `10:00`, not `00:10`), each address in its own group.  Exactly
one member (the GPU itself) shares the claim's normalized bus/slot key, so
the claim predicts `M + 1 = 1` related pair — but the substring test
`"00:10" in "0000:10:00.0"` also fires on the unrelated device, and the
code returns 2 pairs. -/
theorem find_gpu_related_devices_overmatches :
    parseBdf "00:10.0" = some (none, "00:10") ∧
    ((groupPairs [(0, [DeviceRec.mk "00:10.0" none none none none none none]),
        (1, [DeviceRec.mk "0000:10:00.0" none none none none none none])]).map
      (fun p => shortForm p.1.bdf)).Nodup ∧
    ((groupPairs [(0, [DeviceRec.mk "00:10.0" none none none none none none]),
        (1, [DeviceRec.mk "0000:10:00.0" none none none none none none])]).filter
      (fun p => specBusSlot p.1.bdf == specBusSlot "00:10.0")).length = 1 ∧
    (find_gpu_related_devices (DeviceRec.mk "00:10.0" none none none none none none)
      [(0, [DeviceRec.mk "00:10.0" none none none none none none]),
       (1, [DeviceRec.mk "0000:10:00.0" none none none none none none])]).2.length
      = 2 ∧
    (find_gpu_related_devices (DeviceRec.mk "00:10.0" none none none none none none)
      [(0, [DeviceRec.mk "00:10.0" none none none none none none]),
       (1, [DeviceRec.mk "0000:10:00.0" none none none none none none])]).1
      = some 0 := by
  refine ⟨by decide, by decide, by decide, by decide, by decide⟩

end VfioAuto
